import Mathlib

/-!
Shallow embedding of `src/lxc_vps_bot.py`: the credit ledger, the instance
registry, the LXC backend adapter and the orchestrating command flows
(`cmd_buywc`, `cmd_manage`, `cmd_delete_vps`), together with theorems about
the spec's claims.

The SQLite database is modelled as an explicit state value threaded through
the operations: the `users` table is a list of rows, the `vps` table a list
of rows kept in rowid (insertion) order with the AUTOINCREMENT counter made
explicit.  The external world (the `lxc` binary) is an oracle mapping an
argument vector to a process outcome; each adapter function additionally
returns the trace of real process invocations it performed, so that "no
backend call is made" is a statement about the trace.
-/

namespace LxcBot

/-- Row of the `users` table: `user_id INTEGER PRIMARY KEY, credits INTEGER`. -/
structure UserRow where
  user_id : Int
  credits : Int
deriving DecidableEq, Repr

/-- Row of the `vps` table. -/
structure VpsRecord where
  id : Nat
  user_id : Int
  container_name : String
  plan : String
  ram_mb : Int
  cpu_cores : Int
  arch : String
  status : String
  created_at : String
deriving DecidableEq, Repr

/-- The SQLite database: `users` table, `vps` table in rowid (insertion)
order, and the AUTOINCREMENT counter for `vps.id` (next id to assign). -/
structure DB where
  users : List UserRow
  vps : List VpsRecord
  nextId : Nat
deriving DecidableEq, Repr

/-- Freshly created database: both tables empty, AUTOINCREMENT starts at 1. -/
def emptyDB : DB := ⟨[], [], 1⟩

/-- Embeds `get_credits`: `SELECT credits FROM users WHERE user_id = ?`,
returning `r[0] if r else 0`. -/
def get_credits (db : DB) (user_id : Int) : Int :=
  match db.users.find? (fun r => r.user_id == user_id) with
  | some r => r.credits
  | none => 0

/-- Embeds `add_credits`: `INSERT INTO users (user_id, credits) VALUES (?, ?)
ON CONFLICT(user_id) DO UPDATE SET credits = credits + ?`. -/
def add_credits (db : DB) (user_id amount : Int) : DB :=
  if db.users.any (fun r => r.user_id == user_id) then
    { db with users := db.users.map (fun r =>
        if r.user_id == user_id then { r with credits := r.credits + amount } else r) }
  else
    { db with users := db.users ++ [⟨user_id, amount⟩] }

/-- Embeds `remove_credits`: reads the row (returns `false` and does nothing
when absent), otherwise sets `credits` to `max(0, credits - amount)` and
returns `true`. -/
def remove_credits (db : DB) (user_id amount : Int) : DB × Bool :=
  match db.users.find? (fun r => r.user_id == user_id) with
  | none => (db, false)
  | some r =>
    let new := max 0 (r.credits - amount)
    ({ db with users := db.users.map (fun u =>
        if u.user_id == user_id then { u with credits := new } else u) }, true)

/-- Embeds the admin `!adminrc <user> all` branch:
`UPDATE users SET credits=0 WHERE user_id=?`. -/
def set_credits_zero (db : DB) (user_id : Int) : DB :=
  { db with users := db.users.map (fun u =>
      if u.user_id == user_id then { u with credits := 0 } else u) }

/-- Embeds `create_vps_record`: inserts a row with status `"running"` and the
next AUTOINCREMENT id, returning `cur.lastrowid`. -/
def create_vps_record (db : DB) (user_id : Int) (container_name plan : String)
    (ram cpu : Int) (arch : String) (now : String) : DB × Nat :=
  let row : VpsRecord := ⟨db.nextId, user_id, container_name, plan, ram, cpu, arch, "running", now⟩
  ({ db with vps := db.vps ++ [row], nextId := db.nextId + 1 }, db.nextId)

/-- Embeds `get_user_vps`: `SELECT * FROM vps WHERE user_id = ?`; the scan
returns rows in rowid order, which AUTOINCREMENT keeps equal to insertion
order. -/
def get_user_vps (db : DB) (user_id : Int) : List VpsRecord :=
  db.vps.filter (fun r => r.user_id == user_id)

/-- Embeds `get_vps_by_id`: `SELECT * FROM vps WHERE id = ?`. -/
def get_vps_by_id (db : DB) (vps_id : Nat) : Option VpsRecord :=
  db.vps.find? (fun r => r.id == vps_id)

/-- Embeds `delete_vps_record`: `DELETE FROM vps WHERE id = ?`. -/
def delete_vps_record (db : DB) (vps_id : Nat) : DB :=
  { db with vps := db.vps.filter (fun r => r.id != vps_id) }

/-! ### Backend adapter -/

/-- Host environment facts read by `run_lxc_cmd`: the configured `LXC_PATH`,
whether `os.path.exists(LXC_PATH)` holds, the `FAKE_MODE_IF_NO_LXC` config
flag, and whether `"microsoft" in open("/proc/version").read().lower()`. -/
structure Env where
  lxcPath : String
  lxcExists : Bool
  fakeIfNoLxc : Bool
  procVersionMicrosoft : Bool
deriving DecidableEq, Repr

/-- The condition of the fake-mode branch in `run_lxc_cmd`:
`(not os.path.exists(LXC_PATH) and FAKE_IF_NO_LXC) or ("microsoft" in ...)`. -/
def fakeMode (env : Env) : Bool :=
  (!env.lxcExists && env.fakeIfNoLxc) || env.procVersionMicrosoft

/-- Outcome of one real external process: exit code, stdout, stderr, and how
long the process ran (seconds) before exiting on its own. -/
structure ProcResult where
  code : Int
  out : String
  err : String
  duration : Nat
deriving DecidableEq, Repr

/-- Oracle for the external world: what the process spawned for a given
argument vector would do. -/
def Exec := List String → ProcResult

/-- Embeds Python `str.lower()` (ASCII case mapping over the characters). -/
def pyLower (s : String) : String := String.mk (s.data.map Char.toLower)

/-- Character class accepted by Python `shlex.quote` (the complement of its
`_find_unsafe` regex, ASCII word characters plus `@ % + = : , . / -`). -/
def shlexSafeChar (c : Char) : Bool :=
  "abcdefghijklmnopqrstuvwxyzABCDEFGHIJKLMNOPQRSTUVWXYZ0123456789_@%+=:,./-".data.contains c

/-- Embeds Python `shlex.quote`. -/
def shlexQuote (s : String) : String :=
  if s.isEmpty then "\x27\x27"
  else if s.data.all shlexSafeChar then s
  else "\x27" ++ s.replace "\x27" "\x27\"\x27\"\x27" ++ "\x27"

/-- Embeds Python truthiness choice `a or b` on strings. -/
def pyOr (a b : String) : String := if a.isEmpty then b else a

/-- Embeds `run_lxc_cmd(args, timeout=300)`.  Returns the `(code, stdout,
stderr)` triple together with the trace of real process invocations made.
In fake mode the oracle is never consulted and the trace is empty.  The
`timeout` parameter mirrors the Python signature; as in the source body, it
is never consulted (`proc.communicate()` is awaited with no bound). -/
def run_lxc_cmd (env : Env) (ex : Exec) (args : List String) (timeout : Nat) :
    (Int × String × String) × List (List String) :=
  if fakeMode env then
    ((0, "(fake) " ++ String.intercalate " " (args.map shlexQuote), ""), [])
  else
    let p := ex args
    ((p.code, p.out, p.err), [args])

/-- Default value of the `timeout` parameter in the Python signature. -/
def run_lxc_cmd_default_timeout : Nat := 300

/-- Argument vector of the launch step of `create_container`, with the
source's fallback image and profile. -/
def launchArgs (env : Env) (name : String) (image profiles : Option String) : List String :=
  [env.lxcPath, "launch", image.getD "images:ubuntu/22.04", name, "-p", profiles.getD "default"]

/-- Argument vector of the memory-limit step of `create_container`
(`ram_mb` converted to bytes). -/
def memArgs (env : Env) (name : String) (ram : Int) : List String :=
  [env.lxcPath, "config", "set", name, "limits.memory", toString (ram * 1024 * 1024)]

/-- Argument vector of the cpu-limit step of `create_container`. -/
def cpuArgs (env : Env) (name : String) (cpu : Int) : List String :=
  [env.lxcPath, "config", "set", name, "limits.cpu", toString cpu]

/-- Embeds `create_container`: launch, then best-effort memory and cpu limit
calls whose results are discarded. -/
def create_container (env : Env) (ex : Exec) (name : String)
    (image profiles : Option String) (ram_mb cpu_cores : Option Int) :
    (Bool × String) × List (List String) :=
  match run_lxc_cmd env ex (launchArgs env name image profiles) 300 with
  | ((rc, out, err), t1) =>
    if rc != 0 then ((false, pyOr err out), t1)
    else
      let t2 := match ram_mb with
        | some ram => (run_lxc_cmd env ex (memArgs env name ram) 300).2
        | none => []
      let t3 := match cpu_cores with
        | some cpu => (run_lxc_cmd env ex (cpuArgs env name cpu) 300).2
        | none => []
      ((true, pyOr out "created"), t1 ++ t2 ++ t3)

/-- Embeds `delete_container`: force-stop with the result ignored, then
delete; only the delete step's exit code decides the outcome. -/
def delete_container (env : Env) (ex : Exec) (name : String) :
    (Bool × String) × List (List String) :=
  let s := run_lxc_cmd env ex [env.lxcPath, "stop", name, "--force"] 300
  match run_lxc_cmd env ex [env.lxcPath, "delete", name] 300 with
  | ((rc, out, err), t2) =>
    if rc != 0 then ((false, pyOr err out), s.2 ++ t2)
    else ((true, "deleted"), s.2 ++ t2)

/-- Embeds `action_container`: validates the action and forwards it. -/
def action_container (env : Env) (ex : Exec) (name : String) (action : String) :
    (Bool × String) × List (List String) :=
  if !(["start", "stop", "restart", "info"].contains action) then
    ((false, "invalid action"), [])
  else
    match (if action == "info" then run_lxc_cmd env ex [env.lxcPath, "info", name] 300
           else run_lxc_cmd env ex [env.lxcPath, action, name] 300) with
    | ((rc, out, err), t) =>
      if rc != 0 then ((false, pyOr err out), t)
      else ((true, pyOr out "OK"), t)

/-! ### Orchestrator command flows -/

/-- One plan of `plans.json`: the fields read by the bot. -/
structure Plan where
  name : String
  ram_mb : Int
  cpu : Int
  disk_gb : Int
  price : Int
deriving DecidableEq, Repr

/-- The plan catalog `PLANS`, a key-to-plan dictionary. -/
def Plans := String → Option Plan

/-- Embeds `NAME_RE.sub("", s)` for `NAME_RE = re.compile(r"[^a-z0-9-]")`:
keep only lowercase letters, digits and dashes. -/
def sanitizeName (s : String) : String :=
  String.mk (s.data.filter (fun c => "abcdefghijklmnopqrstuvwxyz0123456789-".data.contains c))

/-- Container name built in `cmd_buywc`: sanitize
`f"user{author}-{plan}".lower()` and append the timestamp suffix. -/
def buywc_container_name (author : Int) (plan now : String) : String :=
  sanitizeName (pyLower ("user" ++ toString author ++ "-" ++ plan)) ++ "-" ++ now

/-- Possible outcomes of the `!buywc` flow, one per `return` path. -/
inductive BuyResult where
  | unknownPlan
  | insufficientCredits (cost balance : Int)
  | backendError (msg : String)
  | success (vps_id : Nat) (container_name : String)
deriving DecidableEq, Repr

/-- Embeds `cmd_buywc` (the `!buywc <plan> [arch]` command): plan lookup,
sufficiency check, backend create, debit (boolean result discarded, as in the
source), registry insert.  `now` is the UTC timestamp suffix string. -/
def cmd_buywc (plans : Plans) (env : Env) (ex : Exec) (db : DB)
    (author : Int) (plan0 arch0 now : String) :
    BuyResult × DB × List (List String) :=
  let plan := pyLower plan0
  let arch := pyLower arch0
  match plans plan with
  | none => (.unknownPlan, db, [])
  | some p =>
    let cost := p.price
    let user_credits := get_credits db author
    if user_credits < cost then (.insufficientCredits cost user_credits, db, [])
    else
      let container_name := buywc_container_name author plan now
      match create_container env ex container_name (some "images:ubuntu/22.04")
          (some "default") (some p.ram_mb) (some p.cpu) with
      | ((ok, msg), t) =>
        if ok then
          let db1 := (remove_credits db author cost).1
          let ins := create_vps_record db1 author container_name plan p.ram_mb p.cpu arch now
          (.success ins.2 container_name, ins.1, t)
        else (.backendError msg, db, t)

/-- Possible outcomes of the `!manage` flow, one per `return` path. -/
inductive ManageResult where
  | notFound
  | notOwner
  | backendError (msg : String)
  | deleted
  | invalidAction
  | actionFailed (msg : String)
  | actionOk (out : String)
deriving DecidableEq, Repr

/-- Embeds `cmd_manage` (the `!manage <action> <vps_id>` command): record
lookup, ownership gate, then delete or lifecycle action. -/
def cmd_manage (env : Env) (ex : Exec) (db : DB) (author : Int) (isAdmin : Bool)
    (action0 : String) (vps_id : Nat) : ManageResult × DB × List (List String) :=
  match get_vps_by_id db vps_id with
  | none => (.notFound, db, [])
  | some row =>
    if row.user_id != author && !isAdmin then (.notOwner, db, [])
    else
      let name := row.container_name
      let action := pyLower action0
      if action == "delete" then
        match delete_container env ex name with
        | ((ok, msg), t) =>
          if ok then (.deleted, delete_vps_record db vps_id, t)
          else (.backendError msg, db, t)
      else if !(["start", "stop", "restart", "info"].contains action) then
        (.invalidAction, db, [])
      else
        match action_container env ex name action with
        | ((ok, msg), t) =>
          if ok then (.actionOk msg, db, t) else (.actionFailed msg, db, t)

/-- Possible outcomes of the admin `!delete-vps` flow. -/
inductive AdminDeleteResult where
  | notAuthorized
  | notFoundForUser
  | backendError (msg : String)
  | deleted
deriving DecidableEq, Repr

/-- Embeds `cmd_delete_vps` (admin `!delete-vps <user> <vps_number>`): admin
gate, record lookup requiring the record to belong to the target user,
backend delete, registry removal only on success. -/
def cmd_delete_vps (env : Env) (ex : Exec) (db : DB) (isAdmin : Bool)
    (target : Int) (vps_number : Nat) : AdminDeleteResult × DB × List (List String) :=
  if !isAdmin then (.notAuthorized, db, [])
  else
    match get_vps_by_id db vps_number with
    | none => (.notFoundForUser, db, [])
    | some row =>
      if row.user_id != target then (.notFoundForUser, db, [])
      else
        match delete_container env ex row.container_name with
        | ((ok, msg), t) =>
          if ok then (.deleted, delete_vps_record db vps_number, t)
          else (.backendError msg, db, t)

/-! ### Operation sequences for the ledger and registry invariants -/

/-- One ledger operation: a credit (`add_credits`), a debit
(`remove_credits`), or the admin zero operation (`!adminrc all`). -/
inductive LedgerOp where
  | credit (u amount : Int)
  | debit (u amount : Int)
  | zero (u : Int)
deriving DecidableEq, Repr

/-- Apply one ledger operation to the database. -/
def applyLedgerOp (db : DB) : LedgerOp → DB
  | .credit u a => add_credits db u a
  | .debit u a => (remove_credits db u a).1
  | .zero u => set_credits_zero db u

/-- Apply a sequence of ledger operations in order. -/
def applyLedgerOps (db : DB) (ops : List LedgerOp) : DB :=
  ops.foldl applyLedgerOp db

/-- Credit operations carry a positive amount; other operations are
unconstrained. -/
def amountPositive : LedgerOp → Prop
  | .credit _ a => 0 < a
  | _ => True

/-- One registry operation: an insert (`create_vps_record`) or a removal
(`delete_vps_record`). -/
inductive RegOp where
  | insert (owner : Int) (name plan : String) (ram cpu : Int) (arch now : String)
  | remove (id : Nat)
deriving DecidableEq, Repr

/-- Apply one registry operation to the database. -/
def applyRegOp (db : DB) : RegOp → DB
  | .insert owner name plan ram cpu arch now =>
      (create_vps_record db owner name plan ram cpu arch now).1
  | .remove id => delete_vps_record db id

/-- Apply a sequence of registry operations in order. -/
def applyRegOps (db : DB) (ops : List RegOp) : DB :=
  ops.foldl applyRegOp db

/-! ### Invariants -/

/-- All rows of the `users` table carry a non-negative balance. -/
def LedgerNonneg (db : DB) : Prop := ∀ r ∈ db.users, 0 ≤ r.credits

/-- The `vps` table is sorted by strictly increasing id and every id is below
the AUTOINCREMENT counter. -/
def RegIdsOrdered (db : DB) : Prop :=
  db.vps.Pairwise (fun a b => a.id < b.id) ∧ ∀ r ∈ db.vps, r.id < db.nextId

/-! ### Concrete instances used to exercise the flows -/

/-- Environment where the fake-mode branch is taken because the binary is
absent and `FAKE_MODE_IF_NO_LXC` is set. -/
def fakeEnv : Env := ⟨"/usr/bin/lxc", false, true, false⟩

/-- Environment where the binary exists and real processes are spawned. -/
def realEnv : Env := ⟨"/usr/bin/lxc", true, false, false⟩

/-- Oracle whose processes all exit immediately with status 0. -/
def execZ : Exec := fun _ => ⟨0, "", "", 0⟩

/-- Oracle whose processes exit with status 0 after 301 seconds, longer than
the default 300-second timeout. -/
def slowExec : Exec := fun _ => ⟨0, "done", "", 301⟩

/-- Oracle whose processes all fail with status 1 and a diagnostic on the
error stream. -/
def execFail : Exec := fun _ => ⟨1, "boom-out", "boom-err", 0⟩

/-- A 40-credit plan. -/
def basicPlan : Plan := ⟨"Basic", 1024, 1, 10, 40⟩

/-- Catalog holding only the `basic` plan. -/
def plansB : Plans := fun s => if s == "basic" then some basicPlan else none

/-- A free plan (price 0). -/
def zeroPlan : Plan := ⟨"Zero", 128, 1, 5, 0⟩

/-- Catalog holding only the free plan `z`. -/
def plansZ : Plans := fun s => if s == "z" then some zeroPlan else none

/-- Ledger holding 100 credits for user 7. -/
def db100 : DB := ⟨[⟨7, 100⟩], [], 1⟩

/-- Ledger holding 30 credits for user 7. -/
def db30 : DB := ⟨[⟨7, 30⟩], [], 1⟩

/-- Ledger holding 10 credits for user 3 and nothing else. -/
def dbOther : DB := ⟨[⟨3, 10⟩], [], 1⟩

/-- A provisioned instance record with id 1 owned by user 7. -/
def vpsRow1 : VpsRecord :=
  ⟨1, 7, "user7-basic-240101000000", "basic", 1024, 1, "intel", "running", "240101000000"⟩

/-- Database with one provisioned instance (id 1) owned by user 7. -/
def dbOneVps : DB := ⟨[⟨7, 100⟩], [vpsRow1], 2⟩

/-- Argument vector used to exercise `run_lxc_cmd` directly. -/
def infoArgs : List String := ["/usr/bin/lxc", "info", "c1"]

/-! ### Helper lemmas about the ledger -/

/-- Updating the credits of the rows matching `u` commutes with looking the
first such row up. -/
lemma find?_update_credits (rows : List UserRow) (u new : Int) :
    (rows.map (fun r => if r.user_id == u then { r with credits := new } else r)).find?
        (fun r => r.user_id == u)
      = (rows.find? (fun r => r.user_id == u)).map (fun r => { r with credits := new }) := by
  rw [List.find?_map]
  have hcomp : ((fun r : UserRow => r.user_id == u) ∘
      (fun r => if r.user_id == u then { r with credits := new } else r))
      = (fun r : UserRow => r.user_id == u) := by
    funext r
    by_cases h : (r.user_id == u) = true
    · simp [Function.comp, h]
    · simp [Function.comp, h]
  rw [hcomp]
  cases hf : rows.find? (fun r => r.user_id == u) with
  | none => rfl
  | some r0 =>
    have hr0 : r0.user_id = u := by simpa using List.find?_some hf
    simp [hr0]

/-- Reading the balance of a user whose row was found. -/
lemma get_credits_eq_of_find? (db : DB) (u : Int) (r0 : UserRow)
    (h : db.users.find? (fun r => r.user_id == u) = some r0) :
    get_credits db u = r0.credits := by
  unfold get_credits; rw [h]

/-- When no row matches, `remove_credits` is a no-op returning `false`. -/
lemma remove_credits_of_find?_none (db : DB) (u a : Int)
    (h : db.users.find? (fun r => r.user_id == u) = none) :
    remove_credits db u a = (db, false) := by
  unfold remove_credits; rw [h]

/-- When a row matches, `remove_credits` clamps it at zero and returns
`true`; the resulting balance of `u` is `max 0 (credits - a)`. -/
lemma remove_credits_of_find?_some (db : DB) (u a : Int) (r0 : UserRow)
    (h : db.users.find? (fun r => r.user_id == u) = some r0) :
    get_credits (remove_credits db u a).1 u = max 0 (r0.credits - a) ∧
      (remove_credits db u a).2 = true := by
  unfold remove_credits
  rw [h]
  refine ⟨?_, rfl⟩
  unfold get_credits
  rw [find?_update_credits, h]
  rfl

/-- The `vps` table and the AUTOINCREMENT counter are untouched by
`remove_credits`. -/
lemma remove_credits_vps (db : DB) (u a : Int) :
    ((remove_credits db u a).1).vps = db.vps ∧
      ((remove_credits db u a).1).nextId = db.nextId := by
  unfold remove_credits
  cases h : db.users.find? (fun r => r.user_id == u) <;> exact ⟨rfl, rfl⟩

/-- Two databases with the same `users` table agree on every balance. -/
lemma get_credits_congr_users (db1 db2 : DB) (h : db1.users = db2.users) (u : Int) :
    get_credits db1 u = get_credits db2 u := by
  unfold get_credits; rw [h]

/-- Two databases with the same `vps` table agree on every owner listing. -/
lemma get_user_vps_congr_vps (db1 db2 : DB) (h : db1.vps = db2.vps) (u : Int) :
    get_user_vps db1 u = get_user_vps db2 u := by
  unfold get_user_vps; rw [h]

/-- Inserting a record appends it to the owner's `get_user_vps` listing. -/
lemma get_user_vps_insert_self (db : DB) (u : Int) (name plan : String)
    (ram cpu : Int) (arch now : String) :
    get_user_vps (create_vps_record db u name plan ram cpu arch now).1 u
      = get_user_vps db u ++ [⟨db.nextId, u, name, plan, ram, cpu, arch, "running", now⟩] := by
  unfold get_user_vps create_vps_record
  simp

/-- Each single ledger operation with a positive credit amount preserves
non-negativity of every row. -/
lemma ledgerNonneg_applyLedgerOp (db : DB) (op : LedgerOp)
    (hdb : LedgerNonneg db) (hop : amountPositive op) :
    LedgerNonneg (applyLedgerOp db op) := by
  cases op with
  | credit u a =>
    have ha : 0 < a := hop
    simp only [applyLedgerOp, add_credits]
    split
    · intro r hr
      simp only [List.mem_map] at hr
      obtain ⟨r0, hr0, rfl⟩ := hr
      by_cases h : (r0.user_id == u) = true
      · simp only [h, if_true]
        have := hdb r0 hr0
        omega
      · simp only [h, if_false]
        exact hdb r0 hr0
    · intro r hr
      rcases List.mem_append.mp hr with hmem | hmem
      · exact hdb r hmem
      · simp only [List.mem_singleton] at hmem
        subst hmem
        exact le_of_lt ha
  | debit u a =>
    simp only [applyLedgerOp, remove_credits]
    cases hf : db.users.find? (fun r => r.user_id == u) with
    | none => exact hdb
    | some r0 =>
      intro r hr
      simp only [List.mem_map] at hr
      obtain ⟨r1, hr1, rfl⟩ := hr
      by_cases h : (r1.user_id == u) = true
      · simp only [h, if_true]
        exact le_max_left 0 _
      · simp only [h, if_false]
        exact hdb r1 hr1
  | zero u =>
    simp only [applyLedgerOp, set_credits_zero]
    intro r hr
    simp only [List.mem_map] at hr
    obtain ⟨r1, hr1, rfl⟩ := hr
    by_cases h : (r1.user_id == u) = true
    · simp only [h, if_true]
      exact le_refl 0
    · simp only [h, if_false]
      exact hdb r1 hr1

/-- A sequence of ledger operations with positive credit amounts preserves
non-negativity of every row. -/
lemma ledgerNonneg_applyLedgerOps (ops : List LedgerOp) (db : DB)
    (hdb : LedgerNonneg db) (hpos : ∀ op ∈ ops, amountPositive op) :
    LedgerNonneg (applyLedgerOps db ops) := by
  induction ops generalizing db with
  | nil => exact hdb
  | cons op ops ih =>
    have h1 := ledgerNonneg_applyLedgerOp db op hdb (hpos op (List.mem_cons_self op ops))
    exact ih (applyLedgerOp db op) h1 (fun o ho => hpos o (List.mem_cons_of_mem op ho))

/-- A balance read out of a table of non-negative rows is non-negative. -/
lemma get_credits_nonneg_of (db : DB) (hdb : LedgerNonneg db) (u : Int) :
    0 ≤ get_credits db u := by
  unfold get_credits
  cases hf : db.users.find? (fun r => r.user_id == u) with
  | none => exact le_refl 0
  | some r0 => exact hdb r0 (List.mem_of_find?_eq_some hf)

/-! ### Helper lemmas about the registry -/

/-- Each registry operation preserves the id ordering invariant. -/
lemma regIdsOrdered_applyRegOp (db : DB) (op : RegOp) (h : RegIdsOrdered db) :
    RegIdsOrdered (applyRegOp db op) := by
  obtain ⟨hp, hb⟩ := h
  cases op with
  | insert owner name plan ram cpu arch now =>
    simp only [applyRegOp, create_vps_record]
    constructor
    · rw [List.pairwise_append]
      refine ⟨hp, by simp, ?_⟩
      intro a ha b hb'
      simp only [List.mem_singleton] at hb'
      subst hb'
      exact hb a ha
    · intro r hr
      rcases List.mem_append.mp hr with h1 | h1
      · exact Nat.lt_succ_of_lt (hb r h1)
      · simp only [List.mem_singleton] at h1
        subst h1
        exact Nat.lt_succ_self _
  | remove id =>
    simp only [applyRegOp, delete_vps_record]
    exact ⟨hp.filter _, fun r hr => hb r (List.mem_of_mem_filter hr)⟩

/-- A sequence of registry operations preserves the id ordering invariant. -/
lemma regIdsOrdered_applyRegOps (ops : List RegOp) (db : DB)
    (h : RegIdsOrdered db) : RegIdsOrdered (applyRegOps db ops) := by
  induction ops generalizing db with
  | nil => exact h
  | cons op ops ih => exact ih (applyRegOp db op) (regIdsOrdered_applyRegOp db op h)

/-- Running one more registry operation after a sequence. -/
lemma applyRegOps_append_one (db : DB) (ops : List RegOp) (op : RegOp) :
    applyRegOps db (ops ++ [op]) = applyRegOp (applyRegOps db ops) op := by
  simp [applyRegOps, List.foldl_append]

/-! ### Path characterizations of the buy-with-credits flow -/

/-- An unknown plan key stops the flow at once. -/
lemma cmd_buywc_unknown (plans : Plans) (env : Env) (ex : Exec) (db : DB)
    (author : Int) (plan0 arch0 now : String)
    (hplan : plans (pyLower plan0) = none) :
    cmd_buywc plans env ex db author plan0 arch0 now = (.unknownPlan, db, []) := by
  simp only [cmd_buywc, hplan]

/-- A balance below the price stops the flow before the backend call. -/
lemma cmd_buywc_insufficient_path (plans : Plans) (env : Env) (ex : Exec) (db : DB)
    (author : Int) (plan0 arch0 now : String) (p : Plan)
    (hplan : plans (pyLower plan0) = some p)
    (hlt : get_credits db author < p.price) :
    cmd_buywc plans env ex db author plan0 arch0 now
      = (.insufficientCredits p.price (get_credits db author), db, []) := by
  simp only [cmd_buywc, hplan]
  rw [if_pos hlt]

/-- A failed backend create stops the flow with a `backendError` and leaves
the database untouched. -/
lemma cmd_buywc_backend_fail (plans : Plans) (env : Env) (ex : Exec) (db : DB)
    (author : Int) (plan0 arch0 now : String) (p : Plan)
    (hplan : plans (pyLower plan0) = some p)
    (hge : ¬ get_credits db author < p.price)
    (hko : (create_container env ex (buywc_container_name author (pyLower plan0) now)
        (some "images:ubuntu/22.04") (some "default") (some p.ram_mb) (some p.cpu)).1.1
        = false) :
    cmd_buywc plans env ex db author plan0 arch0 now
      = (.backendError (create_container env ex (buywc_container_name author (pyLower plan0) now)
            (some "images:ubuntu/22.04") (some "default") (some p.ram_mb) (some p.cpu)).1.2,
         db,
         (create_container env ex (buywc_container_name author (pyLower plan0) now)
            (some "images:ubuntu/22.04") (some "default") (some p.ram_mb) (some p.cpu)).2) := by
  simp only [cmd_buywc, hplan]
  rw [if_neg hge]
  rcases hcc : create_container env ex (buywc_container_name author (pyLower plan0) now)
      (some "images:ubuntu/22.04") (some "default") (some p.ram_mb) (some p.cpu) with ⟨⟨ok, msg⟩, t⟩
  rw [hcc] at hko
  simp only at hko
  subst hko
  simp

/-- A successful backend create debits the price (discarding the debit's
boolean result) and inserts the registry record. -/
lemma cmd_buywc_success_path (plans : Plans) (env : Env) (ex : Exec) (db : DB)
    (author : Int) (plan0 arch0 now : String) (p : Plan)
    (hplan : plans (pyLower plan0) = some p)
    (hge : ¬ get_credits db author < p.price)
    (hok : (create_container env ex (buywc_container_name author (pyLower plan0) now)
        (some "images:ubuntu/22.04") (some "default") (some p.ram_mb) (some p.cpu)).1.1
        = true) :
    cmd_buywc plans env ex db author plan0 arch0 now
      = (.success ((create_vps_record (remove_credits db author p.price).1 author
            (buywc_container_name author (pyLower plan0) now) (pyLower plan0) p.ram_mb p.cpu
            (pyLower arch0) now).2) (buywc_container_name author (pyLower plan0) now),
         (create_vps_record (remove_credits db author p.price).1 author
            (buywc_container_name author (pyLower plan0) now) (pyLower plan0) p.ram_mb p.cpu
            (pyLower arch0) now).1,
         (create_container env ex (buywc_container_name author (pyLower plan0) now)
            (some "images:ubuntu/22.04") (some "default") (some p.ram_mb) (some p.cpu)).2) := by
  simp only [cmd_buywc, hplan]
  rw [if_neg hge]
  rcases hcc : create_container env ex (buywc_container_name author (pyLower plan0) now)
      (some "images:ubuntu/22.04") (some "default") (some p.ram_mb) (some p.cpu) with ⟨⟨ok, msg⟩, t⟩
  rw [hcc] at hok
  simp only at hok
  subst hok
  simp

/-! ### Path characterizations of the delete flows -/

/-- When the backend delete succeeds, `cmd_manage delete` removes the
registry record. -/
lemma cmd_manage_delete_ok (env : Env) (ex : Exec) (db : DB) (author : Int)
    (isAdmin : Bool) (vps_id : Nat) (row : VpsRecord)
    (hrow : get_vps_by_id db vps_id = some row)
    (hown : (row.user_id != author && !isAdmin) = false)
    (hok : (delete_container env ex row.container_name).1.1 = true) :
    cmd_manage env ex db author isAdmin "delete" vps_id
      = (.deleted, delete_vps_record db vps_id,
         (delete_container env ex row.container_name).2) := by
  have hdl : pyLower "delete" = "delete" := rfl
  simp only [cmd_manage, hrow, hown, hdl]
  rcases hdc : delete_container env ex row.container_name with ⟨⟨ok, msg⟩, t⟩
  rw [hdc] at hok
  simp only at hok
  subst hok
  simp

/-- When the backend delete fails, `cmd_manage delete` reports the backend
error and keeps the database unchanged. -/
lemma cmd_manage_delete_fail (env : Env) (ex : Exec) (db : DB) (author : Int)
    (isAdmin : Bool) (vps_id : Nat) (row : VpsRecord)
    (hrow : get_vps_by_id db vps_id = some row)
    (hown : (row.user_id != author && !isAdmin) = false)
    (hko : (delete_container env ex row.container_name).1.1 = false) :
    cmd_manage env ex db author isAdmin "delete" vps_id
      = (.backendError (delete_container env ex row.container_name).1.2, db,
         (delete_container env ex row.container_name).2) := by
  have hdl : pyLower "delete" = "delete" := rfl
  simp only [cmd_manage, hrow, hown, hdl]
  rcases hdc : delete_container env ex row.container_name with ⟨⟨ok, msg⟩, t⟩
  rw [hdc] at hko
  simp only at hko
  subst hko
  simp

/-- When the backend delete succeeds, admin `cmd_delete_vps` removes the
registry record. -/
lemma cmd_delete_vps_ok (env : Env) (ex : Exec) (db : DB) (target : Int)
    (vps_id : Nat) (row : VpsRecord)
    (hrow : get_vps_by_id db vps_id = some row)
    (htgt : (row.user_id != target) = false)
    (hok : (delete_container env ex row.container_name).1.1 = true) :
    cmd_delete_vps env ex db true target vps_id
      = (.deleted, delete_vps_record db vps_id,
         (delete_container env ex row.container_name).2) := by
  simp only [cmd_delete_vps, hrow, htgt]
  rcases hdc : delete_container env ex row.container_name with ⟨⟨ok, msg⟩, t⟩
  rw [hdc] at hok
  simp only at hok
  subst hok
  simp

/-- When the backend delete fails, admin `cmd_delete_vps` reports the backend
error and keeps the database unchanged. -/
lemma cmd_delete_vps_fail (env : Env) (ex : Exec) (db : DB) (target : Int)
    (vps_id : Nat) (row : VpsRecord)
    (hrow : get_vps_by_id db vps_id = some row)
    (htgt : (row.user_id != target) = false)
    (hko : (delete_container env ex row.container_name).1.1 = false) :
    cmd_delete_vps env ex db true target vps_id
      = (.backendError (delete_container env ex row.container_name).1.2, db,
         (delete_container env ex row.container_name).2) := by
  simp only [cmd_delete_vps, hrow, htgt]
  rcases hdc : delete_container env ex row.container_name with ⟨⟨ok, msg⟩, t⟩
  rw [hdc] at hko
  simp only at hko
  subst hko
  simp

/-- Two oracles agreeing on an argument vector give identical call results. -/
lemma run_lxc_cmd_congr (env : Env) (ex1 ex2 : Exec) (args : List String) (t : Nat)
    (h : ex1 args = ex2 args) :
    run_lxc_cmd env ex1 args t = run_lxc_cmd env ex2 args t := by
  simp only [run_lxc_cmd, h]

/-- Quoting a non-empty word of safe characters returns it unchanged. -/
lemma shlexQuote_safe (s : String) (h1 : s.isEmpty = false)
    (h2 : s.data.all shlexSafeChar = true) : shlexQuote s = s := by
  simp [shlexQuote, h1, h2]

/-! ### Claim theorems -/

/-- C5: starting from an empty ledger, after any sequence of credits with
positive amounts, debits, and admin zero operations every balance read is
non-negative; and a debit of an amount exceeding the current balance of an
existing row clamps the balance to 0 and still reports `true` instead of
rejecting. -/
theorem ledger_balance_nonneg (ops : List LedgerOp)
    (hpos : ∀ op ∈ ops, amountPositive op) :
    (∀ u : Int, 0 ≤ get_credits (applyLedgerOps emptyDB ops) u) ∧
    (∀ (db : DB) (u a : Int) (r0 : UserRow),
        db.users.find? (fun r => r.user_id == u) = some r0 →
        get_credits db u < a →
        get_credits (remove_credits db u a).1 u = 0 ∧
          (remove_credits db u a).2 = true) := by
  constructor
  · intro u
    refine get_credits_nonneg_of _ ?_ u
    refine ledgerNonneg_applyLedgerOps ops emptyDB ?_ hpos
    intro r hr
    cases hr
  · intro db u a r0 hf hlt
    have h2 := remove_credits_of_find?_some db u a r0 hf
    rw [get_credits_eq_of_find? db u r0 hf] at hlt
    refine ⟨?_, h2.2⟩
    rw [h2.1]
    exact max_eq_left (by omega)

/-- Witness: the concrete sequence credit 5, debit 10, zero leaves user 1
with a non-negative balance. -/
theorem ledger_balance_nonneg_witness :
    (∀ op ∈ [LedgerOp.credit 1 5, LedgerOp.debit 1 10, LedgerOp.zero 1], amountPositive op) ∧
      0 ≤ get_credits (applyLedgerOps emptyDB
            [LedgerOp.credit 1 5, LedgerOp.debit 1 10, LedgerOp.zero 1]) 1 := by
  have hpos : ∀ op ∈ [LedgerOp.credit 1 5, LedgerOp.debit 1 10, LedgerOp.zero 1],
      amountPositive op := by
    intro op hop
    simp only [List.mem_cons, List.not_mem_nil, or_false] at hop
    rcases hop with rfl | rfl | rfl
    · show (0 : Int) < 5
      decide
    · trivial
    · trivial
  exact ⟨hpos, (ledger_balance_nonneg _ hpos).1 1⟩

/-- C9: after any sequence of registry operations starting from the empty
database, `get_user_vps` lists an owner's records in strictly increasing id
order, and one more insert for that owner appends the new record at the end
of the listing, so the listing is in creation order. -/
theorem get_user_vps_creation_order (ops : List RegOp) (u : Int) :
    ((get_user_vps (applyRegOps emptyDB ops) u).Pairwise (fun a b => a.id < b.id)) ∧
    (∀ name plan ram cpu arch now,
      get_user_vps (applyRegOps emptyDB (ops ++ [RegOp.insert u name plan ram cpu arch now])) u
        = get_user_vps (applyRegOps emptyDB ops) u
          ++ [⟨(applyRegOps emptyDB ops).nextId, u, name, plan, ram, cpu, arch, "running",
               now⟩]) := by
  constructor
  · have h := regIdsOrdered_applyRegOps ops emptyDB ⟨List.Pairwise.nil, by intro r hr; cases hr⟩
    exact h.1.filter _
  · intro name plan ram cpu arch now
    rw [applyRegOps_append_one]
    exact get_user_vps_insert_self _ u name plan ram cpu arch now

/-- C10: reading the balance of a user who has no ledger row returns 0. -/
theorem get_credits_missing_row (db : DB) (u : Int)
    (h : ∀ r ∈ db.users, (r.user_id == u) = false) :
    get_credits db u = 0 := by
  unfold get_credits
  have hn : db.users.find? (fun r => r.user_id == u) = none := by
    rw [List.find?_eq_none]
    intro r hr
    simp [h r hr]
  rw [hn]

/-- Witness: user 5 has no row in `dbOther`, and the balance read is 0. -/
theorem get_credits_missing_row_witness :
    (∀ r ∈ dbOther.users, (r.user_id == (5 : Int)) = false) ∧ get_credits dbOther 5 = 0 :=
  ⟨by decide, get_credits_missing_row dbOther 5 (by decide)⟩

/-- C6 (failing part): the `timeout` argument of `run_lxc_cmd` is not
enforced.  The result is identical for every timeout value, and a real call
whose process runs 301 seconds - past the default 300-second bound - is
neither terminated nor failed: its own exit status 0 is returned unchanged,
where the claim requires a failure. -/
theorem run_lxc_cmd_timeout_unenforced :
    (∀ (env : Env) (ex : Exec) (args : List String) (t1 t2 : Nat),
        run_lxc_cmd env ex args t1 = run_lxc_cmd env ex args t2) ∧
    (slowExec infoArgs).duration > run_lxc_cmd_default_timeout ∧
    run_lxc_cmd realEnv slowExec infoArgs run_lxc_cmd_default_timeout
      = ((0, "done", ""), [infoArgs]) :=
  ⟨fun _ _ _ _ _ => rfl, by decide, rfl⟩

/-- C7: `create_container` fails exactly when the launch step fails; on
launch failure it returns the launch diagnostic (error stream, else output
stream) and its invocation trace is that of the launch call alone, so no
resource-limit call is attempted; on launch success it returns success with
the launch output, its trace extends by the memory-limit (`ram_mb` in bytes)
and cpu-limit calls, and the outcome is unchanged under any oracle agreeing
on the launch vector - limit-call failures neither fail nor roll back the
create. -/
theorem create_container_launch_gate (env : Env) (ex : Exec) (name : String)
    (image profiles : Option String) (ram cpu : Int) :
    ((create_container env ex name image profiles (some ram) (some cpu)).1.1 = true ↔
        (run_lxc_cmd env ex (launchArgs env name image profiles) 300).1.1 = 0) ∧
    ((run_lxc_cmd env ex (launchArgs env name image profiles) 300).1.1 ≠ 0 →
        create_container env ex name image profiles (some ram) (some cpu)
          = ((false,
               pyOr (run_lxc_cmd env ex (launchArgs env name image profiles) 300).1.2.2
                 (run_lxc_cmd env ex (launchArgs env name image profiles) 300).1.2.1),
             (run_lxc_cmd env ex (launchArgs env name image profiles) 300).2)) ∧
    ((run_lxc_cmd env ex (launchArgs env name image profiles) 300).1.1 = 0 →
        create_container env ex name image profiles (some ram) (some cpu)
          = ((true,
               pyOr (run_lxc_cmd env ex (launchArgs env name image profiles) 300).1.2.1
                 "created"),
             (run_lxc_cmd env ex (launchArgs env name image profiles) 300).2
               ++ (run_lxc_cmd env ex (memArgs env name ram) 300).2
               ++ (run_lxc_cmd env ex (cpuArgs env name cpu) 300).2)) ∧
    (∀ ex2 : Exec,
        ex2 (launchArgs env name image profiles) = ex (launchArgs env name image profiles) →
        (create_container env ex2 name image profiles (some ram) (some cpu)).1
          = (create_container env ex name image profiles (some ram) (some cpu)).1) := by
  refine ⟨?_, ?_, ?_, ?_⟩
  · simp only [create_container]
    rcases hl : run_lxc_cmd env ex (launchArgs env name image profiles) 300 with ⟨⟨rc, out, err⟩, t1⟩
    by_cases hrc : rc = 0 <;> simp [hrc]
  · intro hne
    simp only [create_container]
    rcases hl : run_lxc_cmd env ex (launchArgs env name image profiles) 300 with ⟨⟨rc, out, err⟩, t1⟩
    rw [hl] at hne
    simp only at hne
    simp [hne]
  · intro hz
    simp only [create_container]
    rcases hl : run_lxc_cmd env ex (launchArgs env name image profiles) 300 with ⟨⟨rc, out, err⟩, t1⟩
    rw [hl] at hz
    simp only at hz
    subst hz
    simp
  · intro ex2 hagree
    have hrun : run_lxc_cmd env ex2 (launchArgs env name image profiles) 300
        = run_lxc_cmd env ex (launchArgs env name image profiles) 300 :=
      run_lxc_cmd_congr env ex2 ex (launchArgs env name image profiles) 300 hagree
    simp only [create_container, hrun]
    rcases hl : run_lxc_cmd env ex (launchArgs env name image profiles) 300 with ⟨⟨rc, out, err⟩, t1⟩
    by_cases hrc : rc = 0 <;> simp [hrc]

/-- Witness: with a real environment and an oracle that always exits 0, the
launch succeeds and the create issues exactly the launch, memory-limit and
cpu-limit calls and returns success. -/
theorem create_container_launch_gate_witness :
    (run_lxc_cmd realEnv execZ (launchArgs realEnv "c1" none none) 300).1.1 = 0 ∧
    create_container realEnv execZ "c1" none none (some 1024) (some 2)
      = ((true, "created"),
         [launchArgs realEnv "c1" none none, memArgs realEnv "c1" 1024,
          cpuArgs realEnv "c1" 2]) := by
  constructor
  · rfl
  · have h := (create_container_launch_gate realEnv execZ "c1" none none 1024 2).2.2.1 rfl
    rw [h]
    rfl

/-- C8: in fake mode every adapter call returns exit status 0 without
invoking any real process (empty invocation trace), the result is determined
by the argument list alone (identical for every oracle and every timeout),
and for argument vectors of non-empty shlex-safe words the synthetic output
is the `"(fake) "` banner followed by the originally requested command. -/
theorem run_lxc_cmd_fake_mode (env : Env) (ex1 ex2 : Exec) (args : List String)
    (t1 t2 : Nat) (hf : fakeMode env = true)
    (hsafe : ∀ a ∈ args, a.isEmpty = false ∧ a.data.all shlexSafeChar = true) :
    run_lxc_cmd env ex1 args t1 = run_lxc_cmd env ex2 args t2 ∧
    (run_lxc_cmd env ex1 args t1).1.1 = 0 ∧
    (run_lxc_cmd env ex1 args t1).2 = [] ∧
    (run_lxc_cmd env ex1 args t1).1.2.1 = "(fake) " ++ String.intercalate " " args := by
  have hq : args.map shlexQuote = args := by
    have hcong : args.map shlexQuote = args.map id :=
      List.map_congr_left (fun a ha => shlexQuote_safe a (hsafe a ha).1 (hsafe a ha).2)
    rw [hcong, List.map_id]
  simp [run_lxc_cmd, hf, hq]

/-- Witness: a fake-mode info call is oracle- and timeout-independent and
echoes the requested command. -/
theorem run_lxc_cmd_fake_mode_witness :
    fakeMode fakeEnv = true ∧
    (∀ a ∈ infoArgs, a.isEmpty = false ∧ a.data.all shlexSafeChar = true) ∧
    run_lxc_cmd fakeEnv execZ infoArgs 300 = run_lxc_cmd fakeEnv execFail infoArgs 7 ∧
    (run_lxc_cmd fakeEnv execZ infoArgs 300).1.2.1 = "(fake) /usr/bin/lxc info c1" := by
  have h := run_lxc_cmd_fake_mode fakeEnv execZ execFail infoArgs 300 7 rfl (by decide)
  refine ⟨rfl, by decide, h.1, ?_⟩
  rw [h.2.2.2]
  rfl

/-- C1: the charged create flow is all-or-nothing: on a `success` outcome
the balance drops by exactly the plan price and exactly one new registry
record owned by the buyer is appended; on every other outcome the database
is completely unchanged, so no charge-without-record or record-without-charge
state is reachable. -/
theorem buywc_all_or_nothing (plans : Plans) (env : Env) (ex : Exec) (db : DB)
    (author : Int) (plan0 arch0 now : String)
    (hprice : ∀ p, plans (pyLower plan0) = some p → 0 ≤ p.price) :
    (∀ id name, (cmd_buywc plans env ex db author plan0 arch0 now).1 = .success id name →
        ∃ p, plans (pyLower plan0) = some p ∧
          get_credits (cmd_buywc plans env ex db author plan0 arch0 now).2.1 author
              = get_credits db author - p.price ∧
          ∃ newRec : VpsRecord, newRec.user_id = author ∧
            get_user_vps (cmd_buywc plans env ex db author plan0 arch0 now).2.1 author
              = get_user_vps db author ++ [newRec]) ∧
    ((∀ id name, (cmd_buywc plans env ex db author plan0 arch0 now).1 ≠ .success id name) →
        (cmd_buywc plans env ex db author plan0 arch0 now).2.1 = db) := by
  cases hplan : plans (pyLower plan0) with
  | none =>
    rw [cmd_buywc_unknown plans env ex db author plan0 arch0 now hplan]
    exact ⟨fun id name h => (by cases h), fun _ => rfl⟩
  | some p =>
    by_cases hlt : get_credits db author < p.price
    · rw [cmd_buywc_insufficient_path plans env ex db author plan0 arch0 now p hplan hlt]
      exact ⟨fun id name h => (by cases h), fun _ => rfl⟩
    · cases hok : (create_container env ex (buywc_container_name author (pyLower plan0) now)
          (some "images:ubuntu/22.04") (some "default") (some p.ram_mb) (some p.cpu)).1.1 with
      | false =>
        rw [cmd_buywc_backend_fail plans env ex db author plan0 arch0 now p hplan hlt hok]
        exact ⟨fun id name h => (by cases h), fun _ => rfl⟩
      | true =>
        rw [cmd_buywc_success_path plans env ex db author plan0 arch0 now p hplan hlt hok]
        constructor
        · intro id name _
          refine ⟨p, rfl, ?_, ?_⟩
          · have husers : ((create_vps_record (remove_credits db author p.price).1 author
                (buywc_container_name author (pyLower plan0) now) (pyLower plan0)
                p.ram_mb p.cpu (pyLower arch0) now).1).users
                = ((remove_credits db author p.price).1).users := rfl
            rw [get_credits_congr_users _ _ husers author]
            cases hf : db.users.find? (fun r => r.user_id == author) with
            | none =>
              rw [remove_credits_of_find?_none db author p.price hf]
              have h0 : get_credits db author = 0 := by unfold get_credits; rw [hf]
              have hp0 := hprice p hplan
              rw [h0] at hlt ⊢
              omega
            | some r0 =>
              have h2 := remove_credits_of_find?_some db author p.price r0 hf
              rw [h2.1, get_credits_eq_of_find? db author r0 hf]
              rw [get_credits_eq_of_find? db author r0 hf] at hlt
              exact max_eq_right (by omega)
          · refine ⟨⟨((remove_credits db author p.price).1).nextId, author,
                buywc_container_name author (pyLower plan0) now, pyLower plan0, p.ram_mb,
                p.cpu, pyLower arch0, "running", now⟩, rfl, ?_⟩
            rw [get_user_vps_insert_self,
              get_user_vps_congr_vps ((remove_credits db author p.price).1) db
                (remove_credits_vps db author p.price).1 author]
        · intro hne
          exact absurd rfl (hne _ _)

/-- Witness: user 7 with 100 credits buys the 40-credit `basic` plan in fake
mode; the balance drops by 40 and exactly one record is appended. -/
theorem buywc_all_or_nothing_witness :
    ∃ p, plansB (pyLower "basic") = some p ∧
      get_credits (cmd_buywc plansB fakeEnv execZ db100 7 "basic" "intel" "240101000000").2.1 7
          = get_credits db100 7 - p.price ∧
      ∃ newRec : VpsRecord, newRec.user_id = 7 ∧
        get_user_vps (cmd_buywc plansB fakeEnv execZ db100 7 "basic" "intel" "240101000000").2.1 7
          = get_user_vps db100 7 ++ [newRec] := by
  have hprice : ∀ p, plansB (pyLower "basic") = some p → 0 ≤ p.price := by
    intro p hp
    have hb : plansB (pyLower "basic") = some basicPlan := by decide
    rw [hb] at hp
    injection hp with hp2
    subst hp2
    decide
  exact (buywc_all_or_nothing plansB fakeEnv execZ db100 7 "basic" "intel" "240101000000"
    hprice).1 1 "user7-basic-240101000000" (by decide)

/-- C3: with a balance strictly below the plan price, the charged create
fails with the insufficient-credits outcome, makes no backend invocation
(empty trace), and leaves the ledger and registry untouched. -/
theorem buywc_insufficient_credits (plans : Plans) (env : Env) (ex : Exec) (db : DB)
    (author : Int) (plan0 arch0 now : String) (p : Plan)
    (hplan : plans (pyLower plan0) = some p)
    (hlt : get_credits db author < p.price) :
    (cmd_buywc plans env ex db author plan0 arch0 now).1
        = .insufficientCredits p.price (get_credits db author) ∧
    (cmd_buywc plans env ex db author plan0 arch0 now).2.1 = db ∧
    (cmd_buywc plans env ex db author plan0 arch0 now).2.2 = [] := by
  rw [cmd_buywc_insufficient_path plans env ex db author plan0 arch0 now p hplan hlt]
  exact ⟨rfl, rfl, rfl⟩

/-- Witness: user 7 with 30 credits cannot buy the 40-credit `basic` plan;
the database is unchanged and no process is invoked. -/
theorem buywc_insufficient_credits_witness :
    plansB (pyLower "basic") = some basicPlan ∧
    get_credits db30 7 < basicPlan.price ∧
    (cmd_buywc plansB fakeEnv execZ db30 7 "basic" "intel" "240101000000").1
        = .insufficientCredits basicPlan.price (get_credits db30 7) ∧
    (cmd_buywc plansB fakeEnv execZ db30 7 "basic" "intel" "240101000000").2.1 = db30 ∧
    (cmd_buywc plansB fakeEnv execZ db30 7 "basic" "intel" "240101000000").2.2 = [] := by
  have h := buywc_insufficient_credits plansB fakeEnv execZ db30 7 "basic" "intel"
    "240101000000" basicPlan (by decide) (by decide)
  exact ⟨by decide, by decide, h.1, h.2.1, h.2.2⟩

/-- C2 fails on the code: buying the free plan `z` with an empty ledger makes
the flow's debit return `false` (no balance row at debit time), yet the flow
reports a plain `success` - the debit failure is not surfaced at all. -/
theorem buywc_silent_debit_failure_cex :
    (remove_credits emptyDB 7 zeroPlan.price).2 = false ∧
    plansZ (pyLower "z") = some zeroPlan ∧
    (cmd_buywc plansZ fakeEnv execZ emptyDB 7 "z" "intel" "240101000000").1
      = .success 1 "user7-z-240101000000" :=
  ⟨by decide, by decide, by decide⟩

/-- C2 (amended): the post-create debit's boolean result is discarded: when
the plan resolves, the balance check passes and the backend create succeeds,
the flow returns `success` and inserts the registry record whether or not
the debit succeeded; no distinct inconsistency outcome exists. -/
theorem buywc_debit_result_discarded (plans : Plans) (env : Env) (ex : Exec) (db : DB)
    (author : Int) (plan0 arch0 now : String) (p : Plan)
    (hplan : plans (pyLower plan0) = some p)
    (hge : ¬ get_credits db author < p.price)
    (hok : (create_container env ex (buywc_container_name author (pyLower plan0) now)
        (some "images:ubuntu/22.04") (some "default") (some p.ram_mb) (some p.cpu)).1.1
        = true) :
    ∃ id, (cmd_buywc plans env ex db author plan0 arch0 now).1
        = .success id (buywc_container_name author (pyLower plan0) now) ∧
      (cmd_buywc plans env ex db author plan0 arch0 now).2.1
        = (create_vps_record (remove_credits db author p.price).1 author
            (buywc_container_name author (pyLower plan0) now) (pyLower plan0)
            p.ram_mb p.cpu (pyLower arch0) now).1 := by
  rw [cmd_buywc_success_path plans env ex db author plan0 arch0 now p hplan hge hok]
  exact ⟨_, rfl, rfl⟩

/-- Witness: the free-plan purchase on an empty ledger hits the discarded
debit and still succeeds with the record inserted. -/
theorem buywc_debit_result_discarded_witness :
    plansZ (pyLower "z") = some zeroPlan ∧
    ¬ get_credits emptyDB 7 < zeroPlan.price ∧
    ∃ id, (cmd_buywc plansZ fakeEnv execZ emptyDB 7 "z" "intel" "240101000000").1
        = .success id (buywc_container_name 7 (pyLower "z") "240101000000") ∧
      (cmd_buywc plansZ fakeEnv execZ emptyDB 7 "z" "intel" "240101000000").2.1
        = (create_vps_record (remove_credits emptyDB 7 zeroPlan.price).1 7
            (buywc_container_name 7 (pyLower "z") "240101000000") (pyLower "z")
            zeroPlan.ram_mb zeroPlan.cpu (pyLower "intel") "240101000000").1 := by
  refine ⟨by decide, by decide, ?_⟩
  exact buywc_debit_result_discarded plansZ fakeEnv execZ emptyDB 7 "z" "intel" "240101000000"
    zeroPlan (by decide) (by decide) (by decide)

/-- C4: deleting an existing, owned record removes the registry record
exactly when the backend delete succeeds: on failure the database is
unchanged and a backend error carrying the delete diagnostic is reported, on
success only that record is removed; in both the user flow (`cmd_manage
delete`) and the admin flow (`cmd_delete_vps`) the `users` table - hence
every balance - is untouched, so no refund is ever issued. -/
theorem delete_registry_iff_backend (env : Env) (ex : Exec) (db : DB)
    (author target : Int) (isAdmin : Bool) (vps_id : Nat) (row : VpsRecord)
    (hrow : get_vps_by_id db vps_id = some row)
    (hown : (row.user_id != author && !isAdmin) = false)
    (htgt : (row.user_id != target) = false) :
    ((delete_container env ex row.container_name).1.1 = true →
        (cmd_manage env ex db author isAdmin "delete" vps_id).1 = .deleted ∧
        (cmd_manage env ex db author isAdmin "delete" vps_id).2.1
          = delete_vps_record db vps_id ∧
        (cmd_delete_vps env ex db true target vps_id).1 = .deleted ∧
        (cmd_delete_vps env ex db true target vps_id).2.1 = delete_vps_record db vps_id) ∧
    ((delete_container env ex row.container_name).1.1 = false →
        (cmd_manage env ex db author isAdmin "delete" vps_id).1
          = .backendError (delete_container env ex row.container_name).1.2 ∧
        (cmd_manage env ex db author isAdmin "delete" vps_id).2.1 = db ∧
        (cmd_delete_vps env ex db true target vps_id).1
          = .backendError (delete_container env ex row.container_name).1.2 ∧
        (cmd_delete_vps env ex db true target vps_id).2.1 = db) ∧
    (∀ u : Int,
        get_credits ((cmd_manage env ex db author isAdmin "delete" vps_id).2.1) u
          = get_credits db u ∧
        get_credits ((cmd_delete_vps env ex db true target vps_id).2.1) u
          = get_credits db u) := by
  refine ⟨?_, ?_, ?_⟩
  · intro hok
    rw [cmd_manage_delete_ok env ex db author isAdmin vps_id row hrow hown hok,
        cmd_delete_vps_ok env ex db target vps_id row hrow htgt hok]
    exact ⟨rfl, rfl, rfl, rfl⟩
  · intro hko
    rw [cmd_manage_delete_fail env ex db author isAdmin vps_id row hrow hown hko,
        cmd_delete_vps_fail env ex db target vps_id row hrow htgt hko]
    exact ⟨rfl, rfl, rfl, rfl⟩
  · intro u
    cases hb : (delete_container env ex row.container_name).1.1 with
    | true =>
      rw [cmd_manage_delete_ok env ex db author isAdmin vps_id row hrow hown hb,
          cmd_delete_vps_ok env ex db target vps_id row hrow htgt hb]
      exact ⟨get_credits_congr_users _ _ rfl u, get_credits_congr_users _ _ rfl u⟩
    | false =>
      rw [cmd_manage_delete_fail env ex db author isAdmin vps_id row hrow hown hb,
          cmd_delete_vps_fail env ex db target vps_id row hrow htgt hb]
      exact ⟨rfl, rfl⟩

/-- Witness: in fake mode the backend delete succeeds and both delete flows
remove record 1 while the owner keeps 100 credits. -/
theorem delete_registry_iff_backend_witness :
    get_vps_by_id dbOneVps 1 = some vpsRow1 ∧
    (vpsRow1.user_id != (7 : Int) && !false) = false ∧
    (vpsRow1.user_id != (7 : Int)) = false ∧
    (delete_container fakeEnv execZ vpsRow1.container_name).1.1 = true ∧
    (cmd_manage fakeEnv execZ dbOneVps 7 false "delete" 1).1 = .deleted ∧
    (cmd_delete_vps fakeEnv execZ dbOneVps true 7 1).2.1 = delete_vps_record dbOneVps 1 ∧
    get_credits ((cmd_manage fakeEnv execZ dbOneVps 7 false "delete" 1).2.1) 7
      = get_credits dbOneVps 7 := by
  have h := delete_registry_iff_backend fakeEnv execZ dbOneVps 7 7 false 1 vpsRow1
    (by decide) (by decide) (by decide)
  have hok : (delete_container fakeEnv execZ vpsRow1.container_name).1.1 = true := by decide
  have h1 := h.1 hok
  exact ⟨by decide, by decide, by decide, hok, h1.1, h1.2.2.2, (h.2.2 7).1⟩

end LxcBot
